import Mathlib

/-!
Verification development for the PD0 ensemble decoder of
`glider_utils/parsers/dvl_parser.py` (Teledyne RDI Explorer DVL).

The Python source is embedded shallowly:

* a byte buffer is a `List Nat` (each entry one byte, little-endian fields);
* the aggregate store `DVLdata` (a dict of per-field growable lists) is a
  function from column name to list of values;
* Python exceptions are explicit error values (`PyErr`); a raised exception
  aborts the computation but keeps all mutations performed before the raise,
  exactly as attribute mutation behaves in the source;
* the module is Python 2 code (`from exceptions import Exception` guard), so
  `/` on integers is floor division and `str(ensemble)` is the byte string
  itself; the embedding uses those semantics;
* the names `log` (used in the checksum-mismatch branch) and `np` (used in
  `fill_bt_nans`) are not defined or imported anywhere in the module, so
  evaluating them raises `NameError`; the embedding models those program
  points accordingly.
-/

/-- Python exceptions that the decoder can raise, by kind. -/
inductive PyErr where
  | sampleException (msg : String)
  | nameError (nm : String)
  | indexError
  | structError
  | unboundLocal (nm : String)
  | valueError
deriving DecidableEq

/-- Values stored in the aggregate store's columns: Python ints, floats
(represented exactly as rationals), `np.nan`, and per-depth-cell lists. -/
inductive Val where
  | int (n : Int)
  | rat (q : ℚ)
  | nan
  | list (l : List Int)
deriving DecidableEq

/-- The aggregate store `DVLdata`: one growable column per field name. -/
def Store := String → List Val

/-- A fresh `DVLdata`: every column empty. -/
def emptyStore : Store := fun _ => []

/-- `self._dvl[key].append(value)`. -/
def appendV (s : Store) (key : String) (v : Val) : Store :=
  fun k => if k = key then s key ++ [v] else s k

/-- A consecutive block of `append` statements. -/
def appendAll (s : Store) : List (String × Val) → Store
  | [] => s
  | (k, v) :: t => appendAll (appendV s k v) t

/-- Little-endian 16-bit value from two bytes. -/
def leU16 (b0 b1 : Nat) : Nat := b0 + 256 * b1

/-- `unpack("<H", buf[i:i+2])`: Python slicing clamps, and `unpack` raises
`struct.error` unless the slice has exactly two bytes. -/
def unpackH (buf : List Nat) (i : Nat) : Option Nat :=
  if i + 2 ≤ buf.length then some (leU16 (buf.getD i 0) (buf.getD (i + 1) 0)) else none

/-- Unsigned byte field at offset `i` of an exactly-sized chunk. -/
def bF (c : List Nat) (i : Nat) : Nat := c.getD i 0

/-- Unsigned 16-bit little-endian field at offset `i` of an exactly-sized chunk. -/
def u16F (c : List Nat) (i : Nat) : Nat := leU16 (c.getD i 0) (c.getD (i + 1) 0)

/-- Reinterpret an unsigned 16-bit value as two's-complement signed (`<h`). -/
def toI16 (v : Nat) : Int := if v < 32768 then (v : Int) else (v : Int) - 65536

/-- Signed 16-bit little-endian field (`<h`). -/
def i16F (c : List Nat) (i : Nat) : Int := toI16 (u16F c i)

/-- Unsigned 32-bit little-endian field (`<I` / `<L`). -/
def u32F (c : List Nat) (i : Nat) : Nat :=
  c.getD i 0 + 256 * c.getD (i + 1) 0 + 65536 * c.getD (i + 2) 0 + 16777216 * c.getD (i + 3) 0

/-- Python truthiness of `x & mask` rendered as the source's `1 if _ else 0`. -/
def flag01 (x mask : Nat) : Int := if x &&& mask ≠ 0 then 1 else 0

namespace Names

def HEADER_ID : String := "header_id"
def DATA_SOURCE_ID : String := "data_source_id"
def NUM_BYTES : String := "num_bytes"
def NUM_DATA_TYPES : String := "num_data_types"
def OFFSET_DATA_TYPES : String := "offset_data_types"
def FIXED_LEADER_ID : String := "fixed_leader_id"
def FIRMWARE_VERSION : String := "firmware_version"
def FIRMWARE_REVISION : String := "firmware_revision"
def SYSCONFIG_FREQUENCY : String := "sysconfig_frequency"
def SYSCONFIG_BEAM_PATTERN : String := "sysconfig_beam_pattern"
def SYSCONFIG_SENSOR_CONFIG : String := "sysconfig_sensor_config"
def SYSCONFIG_HEAD_ATTACHED : String := "sysconfig_head_attached"
def SYSCONFIG_VERTICAL_ORIENTATION : String := "sysconfig_vertical_orientation"
def DATA_FLAG : String := "data_flag"
def LAG_LENGTH : String := "lag_length"
def NUM_BEAMS : String := "num_beams"
def NUM_CELLS : String := "num_cells"
def PINGS_PER_ENSEMBLE : String := "pings_per_ensemble"
def DEPTH_CELL_LENGTH : String := "depth_cell_length"
def BLANK_AFTER_TRANSMIT : String := "blank_after_transmit"
def SIGNAL_PROCESSING_MODE : String := "signal_processing_mode"
def LOW_CORR_THRESHOLD : String := "low_corr_threshold"
def NUM_CODE_REPETITIONS : String := "num_code_repetitions"
def PERCENT_GOOD_MIN : String := "percent_good_min"
def ERROR_VEL_THRESHOLD : String := "error_vel_threshold"
def TIME_PER_PING_MINUTES : String := "time_per_ping_minutes"
def TIME_PER_PING_SECONDS : String := "time_per_ping_seconds"
def COORD_TRANSFORM_TYPE : String := "coord_transform_type"
def COORD_TRANSFORM_TILTS : String := "coord_transform_tilts"
def COORD_TRANSFORM_BEAMS : String := "coord_transform_beams"
def COORD_TRANSFORM_MAPPING : String := "coord_transform_mapping"
def HEADING_ALIGNMENT : String := "heading_alignment"
def HEADING_BIAS : String := "heading_bias"
def SENSOR_SOURCE_SPEED : String := "sensor_source_speed"
def SENSOR_SOURCE_DEPTH : String := "sensor_source_depth"
def SENSOR_SOURCE_HEADING : String := "sensor_source_heading"
def SENSOR_SOURCE_PITCH : String := "sensor_source_pitch"
def SENSOR_SOURCE_ROLL : String := "sensor_source_roll"
def SENSOR_SOURCE_CONDUCTIVITY : String := "sensor_source_conductivity"
def SENSOR_SOURCE_TEMPERATURE : String := "sensor_source_temperature"
def SENSOR_AVAILABLE_DEPTH : String := "sensor_available_depth"
def SENSOR_AVAILABLE_HEADING : String := "sensor_available_heading"
def SENSOR_AVAILABLE_PITCH : String := "sensor_available_pitch"
def SENSOR_AVAILABLE_ROLL : String := "sensor_available_roll"
def SENSOR_AVAILABLE_CONDUCTIVITY : String := "sensor_available_conductivity"
def SENSOR_AVAILABLE_TEMPERATURE : String := "sensor_available_temperature"
def BIN_1_DISTANCE : String := "bin_1_distance"
def TRANSMIT_PULSE_LENGTH : String := "transmit_pulse_length"
def REFERENCE_LAYER_START : String := "reference_layer_start"
def REFERENCE_LAYER_STOP : String := "reference_layer_stop"
def FALSE_TARGET_THRESHOLD : String := "false_target_threshold"
def TRANSMIT_LAG_DISTANCE : String := "transmit_lag_distance"
def SYSTEM_BANDWIDTH : String := "system_bandwidth"
def SERIAL_NUMBER : String := "serial_number"
def VARIABLE_LEADER_ID : String := "variable_leader_id"
def ENSEMBLE_NUMBER : String := "ensemble_number"
def ENSEMBLE_NUMBER_INCREMENT : String := "ensemble_number_increment"
def REAL_TIME_CLOCK : String := "real_time_clock"
def ENSEMBLE_START_TIME : String := "ensemble_start_time"
def BIT_RESULT_DEMOD_1 : String := "bit_result_demod_1"
def BIT_RESULT_DEMOD_2 : String := "bit_result_demod_2"
def BIT_RESULT_TIMING : String := "bit_result_timing"
def SPEED_OF_SOUND : String := "speed_of_sound"
def TRANSDUCER_DEPTH : String := "transducer_depth"
def HEADING : String := "heading"
def PITCH : String := "pitch"
def ROLL : String := "roll"
def SALINITY : String := "salinity"
def TEMPERATURE : String := "temperature"
def MPT_MINUTES : String := "mpt_minutes"
def MPT_SECONDS : String := "mpt_seconds"
def HEADING_STDEV : String := "heading_stdev"
def PITCH_STDEV : String := "pitch_stdev"
def ROLL_STDEV : String := "roll_stdev"
def ADC_TRANSMIT_CURRENT : String := "adc_transmit_current"
def ADC_TRANSMIT_VOLTAGE : String := "adc_transmit_voltage"
def ADC_AMBIENT_TEMP : String := "adc_ambient_temp"
def ADC_PRESSURE_PLUS : String := "adc_pressure_plus"
def ADC_PRESSURE_MINUS : String := "adc_pressure_minus"
def ADC_ATTITUDE_TEMP : String := "adc_attitude_temp"
def ADC_ATTITUDE : String := "adc_attitude"
def ADC_CONTAMINATION_SENSOR : String := "adc_contamination_sensor"
def BUS_ERROR_EXCEPTION : String := "bus_error_exception"
def ADDRESS_ERROR_EXCEPTION : String := "address_error_exception"
def ILLEGAL_INSTRUCTION_EXCEPTION : String := "illegal_instruction_exception"
def ZERO_DIVIDE_INSTRUCTION : String := "zero_divide_instruction"
def EMULATOR_EXCEPTION : String := "emulator_exception"
def UNASSIGNED_EXCEPTION : String := "unassigned_exception"
def WATCHDOG_RESTART_OCCURRED : String := "watchdog_restart_occurred"
def BATTERY_SAVER_POWER : String := "battery_saver_power"
def PINGING : String := "pinging"
def COLD_WAKEUP_OCCURRED : String := "cold_wakeup_occurred"
def UNKNOWN_WAKEUP_OCCURRED : String := "unknown_wakeup_occurred"
def CLOCK_READ_ERROR : String := "clock_read_error"
def UNEXPECTED_ALARM : String := "unexpected_alarm"
def CLOCK_JUMP_FORWARD : String := "clock_jump_forward"
def CLOCK_JUMP_BACKWARD : String := "clock_jump_backward"
def POWER_FAIL : String := "power_fail"
def SPURIOUS_DSP_INTERRUPT : String := "spurious_dsp_interrupt"
def SPURIOUS_UART_INTERRUPT : String := "spurious_uart_interrupt"
def SPURIOUS_CLOCK_INTERRUPT : String := "spurious_clock_interrupt"
def LEVEL_7_INTERRUPT : String := "level_7_interrupt"
def PRESSURE : String := "pressure"
def PRESSURE_VARIANCE : String := "pressure_variance"
def VELOCITY_DATA_ID : String := "velocity_data_id"
def WATER_VELOCITY_EAST : String := "water_velocity_east"
def WATER_VELOCITY_NORTH : String := "water_velocity_north"
def WATER_VELOCITY_UP : String := "water_velocity_up"
def ERROR_VELOCITY : String := "error_velocity"
def CORRELATION_MAGNITUDE_ID : String := "correlation_magnitude_id"
def CORRELATION_MAGNITUDE_BEAM1 : String := "correlation_magnitude_beam1"
def CORRELATION_MAGNITUDE_BEAM2 : String := "correlation_magnitude_beam2"
def CORRELATION_MAGNITUDE_BEAM3 : String := "correlation_magnitude_beam3"
def CORRELATION_MAGNITUDE_BEAM4 : String := "correlation_magnitude_beam4"
def ECHO_INTENSITY_ID : String := "echo_intensity_id"
def ECHO_INTENSITY_BEAM1 : String := "echo_intensity_beam1"
def ECHO_INTENSITY_BEAM2 : String := "echo_intensity_beam2"
def ECHO_INTENSITY_BEAM3 : String := "echo_intensity_beam3"
def ECHO_INTENSITY_BEAM4 : String := "echo_intensity_beam4"
def PERCENT_GOOD_ID : String := "percent_good_id"
def PERCENT_GOOD_3BEAM : String := "percent_good_3beam"
def PERCENT_TRANSFORMS_REJECT : String := "percent_transforms_reject"
def PERCENT_BAD_BEAMS : String := "percent_bad_beams"
def PERCENT_GOOD_4BEAM : String := "percent_good_4beam"
def BOTTOM_TRACK_ID : String := "bottom_track_id"
def BT_PINGS_PER_ENSEMBLE : String := "bt_pings_per_ensemble"
def BT_DELAY_BEFORE_REACQUIRE : String := "bt_delay_before_reacquire"
def BT_CORR_MAGNITUDE_MIN : String := "bt_corr_magnitude_min"
def BT_EVAL_MAGNITUDE_MIN : String := "bt_eval_magnitude_min"
def BT_PERCENT_GOOD_MIN : String := "bt_percent_good_min"
def BT_MODE : String := "bt_mode"
def BT_ERROR_VELOCITY_MAX : String := "bt_error_velocity_max"
def BEAM1_BT_RANGE_LSB : String := "beam1_bt_range_lsb"
def BEAM2_BT_RANGE_LSB : String := "beam2_bt_range_lsb"
def BEAM3_BT_RANGE_LSB : String := "beam3_bt_range_lsb"
def BEAM4_BT_RANGE_LSB : String := "beam4_bt_range_lsb"
def EASTWARD_BT_VELOCITY : String := "eastward_bt_velocity"
def NORTHWARD_BT_VELOCITY : String := "northward_bt_velocity"
def UPWARD_BT_VELOCITY : String := "upward_bt_velocity"
def ERROR_BT_VELOCITY : String := "error_bt_velocity"
def BEAM1_BT_CORRELATION : String := "beam1_bt_correlation"
def BEAM2_BT_CORRELATION : String := "beam2_bt_correlation"
def BEAM3_BT_CORRELATION : String := "beam3_bt_correlation"
def BEAM4_BT_CORRELATION : String := "beam4_bt_correlation"
def BEAM1_EVAL_AMP : String := "beam1_eval_amp"
def BEAM2_EVAL_AMP : String := "beam2_eval_amp"
def BEAM3_EVAL_AMP : String := "beam3_eval_amp"
def BEAM4_EVAL_AMP : String := "beam4_eval_amp"
def BEAM1_BT_PERCENT_GOOD : String := "beam1_bt_percent_good"
def BEAM2_BT_PERCENT_GOOD : String := "beam2_bt_percent_good"
def BEAM3_BT_PERCENT_GOOD : String := "beam3_bt_percent_good"
def BEAM4_BT_PERCENT_GOOD : String := "beam4_bt_percent_good"
def REF_LAYER_MIN : String := "ref_layer_min"
def REF_LAYER_NEAR : String := "ref_layer_near"
def REF_LAYER_FAR : String := "ref_layer_far"
def BEAM1_REF_LAYER_VELOCITY : String := "beam1_ref_layer_velocity"
def BEAM2_REF_LAYER_VELOCITY : String := "beam2_ref_layer_velocity"
def BEAM3_REF_LAYER_VELOCITY : String := "beam3_ref_layer_velocity"
def BEAM4_REF_LAYER_VELOCITY : String := "beam4_ref_layer_velocity"
def BEAM1_REF_CORRELATION : String := "beam1_ref_correlation"
def BEAM2_REF_CORRELATION : String := "beam2_ref_correlation"
def BEAM3_REF_CORRELATION : String := "beam3_ref_correlation"
def BEAM4_REF_CORRELATION : String := "beam4_ref_correlation"
def BEAM1_REF_INTENSITY : String := "beam1_ref_intensity"
def BEAM2_REF_INTENSITY : String := "beam2_ref_intensity"
def BEAM3_REF_INTENSITY : String := "beam3_ref_intensity"
def BEAM4_REF_INTENSITY : String := "beam4_ref_intensity"
def BEAM1_REF_PERCENT_GOOD : String := "beam1_ref_percent_good"
def BEAM2_REF_PERCENT_GOOD : String := "beam2_ref_percent_good"
def BEAM3_REF_PERCENT_GOOD : String := "beam3_ref_percent_good"
def BEAM4_REF_PERCENT_GOOD : String := "beam4_ref_percent_good"
def BT_MAX_DEPTH : String := "bt_max_depth"
def BEAM1_RSSI_AMPLITUDE : String := "beam1_rssi_amplitude"
def BEAM2_RSSI_AMPLITUDE : String := "beam2_rssi_amplitude"
def BEAM3_RSSI_AMPLITUDE : String := "beam3_rssi_amplitude"
def BEAM4_RSSI_AMPLITUDE : String := "beam4_rssi_amplitude"
def BT_GAIN : String := "bt_gain"
def BEAM1_BT_RANGE_MSB : String := "beam1_bt_range_msb"
def BEAM2_BT_RANGE_MSB : String := "beam2_bt_range_msb"
def BEAM3_BT_RANGE_MSB : String := "beam3_bt_range_msb"
def BEAM4_BT_RANGE_MSB : String := "beam4_bt_range_msb"
def CHECKSUM : String := "checksum"

end Names

/-- Exception-message strings raised by the decoders. -/
def msg_fixed_id : String := "fixed_leader_id was not equal to 0"

def msg_data_flag : String := "data_flag was not equal to 0"

def msg_spm : String := "signal_processing_mode was not equal to 1"

def msg_var_id : String := "variable_leader_id was not equal to 128"

def msg_vel_id : String := "velocity_data_id was not equal to 256"

def msg_corr_id : String := "correlation_magnitude_id was not equal to 512"

def msg_echo_id : String := "echo_intensity_id was not equal to 768"

def msg_pg_id : String := "percent_good_id was not equal to 1024"

def msg_bt_id : String := "bottom_track_id was not equal to 1536"

/-- The undefined global `log` referenced in the checksum-mismatch branch. -/
def name_log : String := "log"

/-- The undefined global `np` referenced in `fill_bt_nans`. -/
def name_np : String := "np"

/-- The local variable `iCells` referenced before assignment when a
cell-indexed section precedes the Fixed Leader in the offset table. -/
def name_iCells : String := "iCells"

/-!
## Section decoders

Each decoder mirrors one `parse_*_chunk` method. The struct format strings
fix the byte offset and signedness of every field; `unpack` raises
`struct.error` unless the chunk has exactly the format's size, and the
decoders append nothing in that case. After the leading type-id check,
appends happen in source order, so a raise partway through keeps the
appends already performed (Python list mutation is not rolled back).
-/

/-- The 6-entry acoustic frequency lookup table of `parse_fixed_chunk`. -/
def frequencies : List Int := [75, 150, 300, 600, 1200, 2400]

/-- `parse_fixed_chunk` (format `<HBBHBBBBHHHBBBBHBBBBhhBBHHBBBBHQHBBI`,
58 bytes). Returns the updated store, the error if one was raised, and the
decoded `num_cells` (stored into `self.num_depth_cells` before any append,
hence available to the caller exactly when the leading id check passed).
Note the source's `sysconfig_frequency & 0b00110000 >> 4` and
`coord_transform_type & 0b00011000 >> 3`: Python shifts bind tighter than
`&`, so both reduce to `x & 3`; and the three-beam mask is the literal
`0b0000000` (zero). These are embedded exactly as they evaluate. -/
def parse_fixed_chunk (chunk : List Nat) (s : Store) : (Store × Option PyErr) × Option Nat :=
  if chunk.length = 58 then
    let fixed_leader_id := u16F chunk 0
    let firmware_version := bF chunk 2
    let firmware_revision := bF chunk 3
    let sysconfig_frequency := u16F chunk 4
    let data_flag := bF chunk 6
    let lag_length := bF chunk 7
    let num_beams := bF chunk 8
    let num_cells := bF chunk 9
    let pings_per_ensemble := u16F chunk 10
    let depth_cell_length := u16F chunk 12
    let blank_after_transmit := u16F chunk 14
    let signal_processing_mode := bF chunk 16
    let low_corr_threshold := bF chunk 17
    let num_code_repetitions := bF chunk 18
    let percent_good_min := bF chunk 19
    let error_vel_threshold := u16F chunk 20
    let time_per_ping_minutes := bF chunk 22
    let time_per_ping_seconds := bF chunk 23
    let time_per_ping_hundredths := bF chunk 24
    let coord_transform_type := bF chunk 25
    let heading_alignment := i16F chunk 26
    let heading_bias := i16F chunk 28
    let sensor_source := bF chunk 30
    let sensor_available := bF chunk 31
    let bin_1_distance := u16F chunk 32
    let transmit_pulse_length := u16F chunk 34
    let reference_layer_start := bF chunk 36
    let reference_layer_stop := bF chunk 37
    let false_target_threshold := bF chunk 38
    let transmit_lag_distance := u16F chunk 40
    let system_bandwidth := u16F chunk 50
    let serial_number := u32F chunk 54
    if fixed_leader_id = 0 then
      let s := appendAll s
        [(Names.FIXED_LEADER_ID, Val.int fixed_leader_id),
         (Names.FIRMWARE_VERSION, Val.int firmware_version),
         (Names.FIRMWARE_REVISION, Val.int firmware_revision)]
      if sysconfig_frequency &&& 7 < frequencies.length then
        let s := appendAll s
          [(Names.SYSCONFIG_FREQUENCY, Val.int (frequencies.getD (sysconfig_frequency &&& 7) 0)),
           (Names.SYSCONFIG_BEAM_PATTERN, Val.int (flag01 sysconfig_frequency 8)),
           (Names.SYSCONFIG_SENSOR_CONFIG, Val.int ((sysconfig_frequency &&& 3 : ℕ) : ℤ)),
           (Names.SYSCONFIG_HEAD_ATTACHED, Val.int (flag01 sysconfig_frequency 64)),
           (Names.SYSCONFIG_VERTICAL_ORIENTATION, Val.int (flag01 sysconfig_frequency 128))]
        if data_flag = 0 then
          let s := appendAll s
            [(Names.DATA_FLAG, Val.int data_flag),
             (Names.LAG_LENGTH, Val.int lag_length),
             (Names.NUM_BEAMS, Val.int num_beams),
             (Names.NUM_CELLS, Val.int num_cells),
             (Names.PINGS_PER_ENSEMBLE, Val.int pings_per_ensemble),
             (Names.DEPTH_CELL_LENGTH, Val.int depth_cell_length),
             (Names.BLANK_AFTER_TRANSMIT, Val.int blank_after_transmit)]
          if signal_processing_mode = 1 then
            let s := appendAll s
              [(Names.SIGNAL_PROCESSING_MODE, Val.int signal_processing_mode),
               (Names.LOW_CORR_THRESHOLD, Val.int low_corr_threshold),
               (Names.NUM_CODE_REPETITIONS, Val.int num_code_repetitions),
               (Names.PERCENT_GOOD_MIN, Val.int percent_good_min),
               (Names.ERROR_VEL_THRESHOLD, Val.int error_vel_threshold),
               (Names.TIME_PER_PING_MINUTES, Val.int time_per_ping_minutes),
               (Names.TIME_PER_PING_SECONDS,
                 Val.rat ((time_per_ping_seconds + time_per_ping_hundredths / 100 : ℕ) : ℚ)),
               (Names.COORD_TRANSFORM_TYPE, Val.int ((coord_transform_type &&& 3 : ℕ) : ℤ)),
               (Names.COORD_TRANSFORM_TILTS, Val.int (flag01 coord_transform_type 4)),
               (Names.COORD_TRANSFORM_BEAMS, Val.int (flag01 coord_transform_type 0)),
               (Names.COORD_TRANSFORM_MAPPING, Val.int (flag01 coord_transform_type 1)),
               (Names.HEADING_ALIGNMENT, Val.int heading_alignment),
               (Names.HEADING_BIAS, Val.int heading_bias),
               (Names.SENSOR_SOURCE_SPEED, Val.int (flag01 sensor_source 64)),
               (Names.SENSOR_SOURCE_DEPTH, Val.int (flag01 sensor_source 32)),
               (Names.SENSOR_SOURCE_HEADING, Val.int (flag01 sensor_source 16)),
               (Names.SENSOR_SOURCE_PITCH, Val.int (flag01 sensor_source 8)),
               (Names.SENSOR_SOURCE_ROLL, Val.int (flag01 sensor_source 4)),
               (Names.SENSOR_SOURCE_CONDUCTIVITY, Val.int (flag01 sensor_source 2)),
               (Names.SENSOR_SOURCE_TEMPERATURE, Val.int (flag01 sensor_source 1)),
               (Names.SENSOR_AVAILABLE_DEPTH, Val.int (flag01 sensor_available 32)),
               (Names.SENSOR_AVAILABLE_HEADING, Val.int (flag01 sensor_available 16)),
               (Names.SENSOR_AVAILABLE_PITCH, Val.int (flag01 sensor_available 8)),
               (Names.SENSOR_AVAILABLE_ROLL, Val.int (flag01 sensor_available 4)),
               (Names.SENSOR_AVAILABLE_CONDUCTIVITY, Val.int (flag01 sensor_available 2)),
               (Names.SENSOR_AVAILABLE_TEMPERATURE, Val.int (flag01 sensor_available 1)),
               (Names.BIN_1_DISTANCE, Val.int bin_1_distance),
               (Names.TRANSMIT_PULSE_LENGTH, Val.int transmit_pulse_length),
               (Names.REFERENCE_LAYER_START, Val.int reference_layer_start),
               (Names.REFERENCE_LAYER_STOP, Val.int reference_layer_stop),
               (Names.FALSE_TARGET_THRESHOLD, Val.int false_target_threshold),
               (Names.TRANSMIT_LAG_DISTANCE, Val.int transmit_lag_distance),
               (Names.SYSTEM_BANDWIDTH, Val.int system_bandwidth),
               (Names.SERIAL_NUMBER, Val.int serial_number)]
            ((s, none), some num_cells)
          else ((s, some (PyErr.sampleException msg_spm)), some num_cells)
        else ((s, some (PyErr.sampleException msg_data_flag)), some num_cells)
      else ((s, some PyErr.indexError), some num_cells)
    else ((s, some (PyErr.sampleException msg_fixed_id)), none)
  else ((s, some PyErr.structError), none)

/-- Gregorian leap-year test, as used by `datetime` / `calendar.timegm`. -/
def isLeap (y : Nat) : Bool := y % 4 = 0 && (y % 100 ≠ 0 || y % 400 = 0)

/-- Days in a month, for `datetime` validation. -/
def daysInMonth (y m : Nat) : Nat :=
  if m = 2 then (if isLeap y then 29 else 28)
  else if m = 4 ∨ m = 6 ∨ m = 9 ∨ m = 11 then 30
  else 31

/-- The argument validation performed by `dt.datetime(y, m, d, hh, mm, ss)`;
an out-of-range component raises `ValueError`. (The year here is
`2000 + byte`, always within datetime's allowed range.) -/
def validDatetime (y m d hh mm ss : Nat) : Bool :=
  1 ≤ m && m ≤ 12 && 1 ≤ d && d ≤ daysInMonth y m && hh ≤ 23 && mm ≤ 59 && ss ≤ 59

/-- Days from 1970-01-01 to y-m-d (valid Gregorian date, `y ≥ 1970`),
via the standard civil-from-days inverse used by `calendar.timegm`. -/
def daysFromEpoch (y m d : Nat) : Nat :=
  let y2 := if m ≤ 2 then y - 1 else y
  let era := y2 / 400
  let yoe := y2 - era * 400
  let mp := (m + 9) % 12
  let doy := (153 * mp + 2) / 5 + d - 1
  let doe := yoe * 365 + yoe / 4 - yoe / 100 + doy
  era * 146097 + doe - 719468

/-- `calendar.timegm` of a UTC time tuple (seconds since 1970-01-01). -/
def timegm (y m d hh mm ss : Nat) : Nat :=
  daysFromEpoch y m d * 86400 + hh * 3600 + mm * 60 + ss

/-- `parse_variable_chunk` (format `<HHBBBBBBBBBBHHHhhHhBBBBBBBBBBBBBBBBBBHIII`,
60 bytes). `rtc['hundredths'] / 100.0` is true division (float divisor),
while `mpt_hundredths_component/100` is Python 2 integer floor division;
both are embedded as they evaluate. The bit masks for
`PINGING`, `COLD_WAKEUP_OCCURRED` and `UNKNOWN_WAKEUP_OCCURRED` reuse
`error_status_word_1`, exactly as in the source. -/
def parse_variable_chunk (chunk : List Nat) (s : Store) : Store × Option PyErr :=
  if chunk.length = 60 then
    let variable_leader_id := u16F chunk 0
    let ensemble_number := u16F chunk 2
    let rtc_year := bF chunk 4
    let rtc_month := bF chunk 5
    let rtc_day := bF chunk 6
    let rtc_hour := bF chunk 7
    let rtc_minute := bF chunk 8
    let rtc_second := bF chunk 9
    let rtc_hundredths := bF chunk 10
    let ensemble_number_increment := bF chunk 11
    let error_bit_field := bF chunk 12
    let speed_of_sound := u16F chunk 14
    let transducer_depth := u16F chunk 16
    let heading := u16F chunk 18
    let pitch := i16F chunk 20
    let roll := i16F chunk 22
    let salinity := u16F chunk 24
    let temperature := i16F chunk 26
    let mpt_minutes := bF chunk 28
    let mpt_seconds_component := bF chunk 29
    let mpt_hundredths_component := bF chunk 30
    let heading_stdev := bF chunk 31
    let pitch_stdev := bF chunk 32
    let roll_stdev := bF chunk 33
    let adc_transmit_current := bF chunk 34
    let adc_transmit_voltage := bF chunk 35
    let adc_ambient_temp := bF chunk 36
    let adc_pressure_plus := bF chunk 37
    let adc_pressure_minus := bF chunk 38
    let adc_attitude_temp := bF chunk 39
    let adc_attitiude := bF chunk 40
    let adc_contamination_sensor := bF chunk 41
    let error_status_word_1 := bF chunk 42
    let error_status_word_3 := bF chunk 44
    let error_status_word_4 := bF chunk 45
    let pressure := u32F chunk 48
    let pressure_variance := u32F chunk 52
    if variable_leader_id = 128 then
      let s := appendAll s
        [(Names.VARIABLE_LEADER_ID, Val.int variable_leader_id),
         (Names.ENSEMBLE_NUMBER, Val.int ensemble_number),
         (Names.ENSEMBLE_NUMBER_INCREMENT, Val.int ensemble_number_increment)]
      if validDatetime (2000 + rtc_year) rtc_month rtc_day rtc_hour rtc_minute rtc_second then
        let epts : ℚ :=
          (timegm (2000 + rtc_year) rtc_month rtc_day rtc_hour rtc_minute rtc_second : ℚ)
            + (rtc_hundredths : ℚ) / 100
        let s := appendAll s
          [(Names.REAL_TIME_CLOCK,
             Val.list [rtc_year, rtc_month, rtc_day, rtc_hour, rtc_minute, rtc_second,
                       rtc_hundredths]),
           (Names.ENSEMBLE_START_TIME, Val.rat epts),
           (Names.BIT_RESULT_DEMOD_1, Val.int (flag01 error_bit_field 8)),
           (Names.BIT_RESULT_DEMOD_2, Val.int (flag01 error_bit_field 16)),
           (Names.BIT_RESULT_TIMING, Val.int (flag01 error_bit_field 2)),
           (Names.SPEED_OF_SOUND, Val.int speed_of_sound),
           (Names.TRANSDUCER_DEPTH, Val.int transducer_depth),
           (Names.HEADING, Val.int heading),
           (Names.PITCH, Val.int pitch),
           (Names.ROLL, Val.int roll),
           (Names.SALINITY, Val.int salinity),
           (Names.TEMPERATURE, Val.int temperature),
           (Names.MPT_MINUTES, Val.int mpt_minutes),
           (Names.MPT_SECONDS,
             Val.rat ((mpt_seconds_component + mpt_hundredths_component / 100 : ℕ) : ℚ)),
           (Names.HEADING_STDEV, Val.int heading_stdev),
           (Names.PITCH_STDEV, Val.int pitch_stdev),
           (Names.ROLL_STDEV, Val.int roll_stdev),
           (Names.ADC_TRANSMIT_CURRENT, Val.int adc_transmit_current),
           (Names.ADC_TRANSMIT_VOLTAGE, Val.int adc_transmit_voltage),
           (Names.ADC_AMBIENT_TEMP, Val.int adc_ambient_temp),
           (Names.ADC_PRESSURE_PLUS, Val.int adc_pressure_plus),
           (Names.ADC_PRESSURE_MINUS, Val.int adc_pressure_minus),
           (Names.ADC_ATTITUDE_TEMP, Val.int adc_attitude_temp),
           (Names.ADC_ATTITUDE, Val.int adc_attitiude),
           (Names.ADC_CONTAMINATION_SENSOR, Val.int adc_contamination_sensor),
           (Names.BUS_ERROR_EXCEPTION, Val.int (flag01 error_status_word_1 1)),
           (Names.ADDRESS_ERROR_EXCEPTION, Val.int (flag01 error_status_word_1 2)),
           (Names.ILLEGAL_INSTRUCTION_EXCEPTION, Val.int (flag01 error_status_word_1 4)),
           (Names.ZERO_DIVIDE_INSTRUCTION, Val.int (flag01 error_status_word_1 8)),
           (Names.EMULATOR_EXCEPTION, Val.int (flag01 error_status_word_1 16)),
           (Names.UNASSIGNED_EXCEPTION, Val.int (flag01 error_status_word_1 32)),
           (Names.WATCHDOG_RESTART_OCCURRED, Val.int (flag01 error_status_word_1 64)),
           (Names.BATTERY_SAVER_POWER, Val.int (flag01 error_status_word_1 128)),
           (Names.PINGING, Val.int (flag01 error_status_word_1 1)),
           (Names.COLD_WAKEUP_OCCURRED, Val.int (flag01 error_status_word_1 64)),
           (Names.UNKNOWN_WAKEUP_OCCURRED, Val.int (flag01 error_status_word_1 128)),
           (Names.CLOCK_READ_ERROR, Val.int (flag01 error_status_word_3 1)),
           (Names.UNEXPECTED_ALARM, Val.int (flag01 error_status_word_3 2)),
           (Names.CLOCK_JUMP_FORWARD, Val.int (flag01 error_status_word_3 4)),
           (Names.CLOCK_JUMP_BACKWARD, Val.int (flag01 error_status_word_3 8)),
           (Names.POWER_FAIL, Val.int (flag01 error_status_word_4 8)),
           (Names.SPURIOUS_DSP_INTERRUPT, Val.int (flag01 error_status_word_4 16)),
           (Names.SPURIOUS_UART_INTERRUPT, Val.int (flag01 error_status_word_4 32)),
           (Names.SPURIOUS_CLOCK_INTERRUPT, Val.int (flag01 error_status_word_4 64)),
           (Names.LEVEL_7_INTERRUPT, Val.int (flag01 error_status_word_4 128)),
           (Names.PRESSURE, Val.int pressure),
           (Names.PRESSURE_VARIANCE, Val.int pressure_variance)]
        (s, none)
      else (s, some PyErr.valueError)
    else (s, some (PyErr.sampleException msg_var_id))
  else (s, some PyErr.structError)

/-- The per-cell loop of `parse_velocity_chunk`: `for row in range(1, N)`
reads `chunk[offset+2 : offset+10]` as four `<h` values and advances
`offset` by 8. The count argument is the number of iterations,
`N - 1` (zero when `N ≤ 1`), reproducing the source's `range(1, N)`. -/
def vel_rows (chunk : List Nat) : Nat → Nat → Option (List (Int × Int × Int × Int))
  | _, 0 => some []
  | off, n + 1 =>
    if off + 10 ≤ chunk.length then
      match vel_rows chunk (off + 8) n with
      | none => none
      | some t =>
        some ((i16F chunk (off + 2), i16F chunk (off + 4), i16F chunk (off + 6),
               i16F chunk (off + 8)) :: t)
    else none

/-- The per-cell loop shared in shape by the correlation-magnitude,
echo-intensity and percent-good decoders: `for row in range(1, N)` reads
`chunk[offset+2 : offset+6]` as four `<B` values and advances `offset`
by 4. -/
def byte_rows (chunk : List Nat) : Nat → Nat → Option (List (Nat × Nat × Nat × Nat))
  | _, 0 => some []
  | off, n + 1 =>
    if off + 6 ≤ chunk.length then
      match byte_rows chunk (off + 4) n with
      | none => none
      | some t =>
        some ((bF chunk (off + 2), bF chunk (off + 3), bF chunk (off + 4),
               bF chunk (off + 5)) :: t)
    else none

/-- `parse_velocity_chunk`. `N = (len(chunk) - 2) / 2 / 4` with Python 2
floor division; the loop `range(1, N)` performs `N - 1` iterations, and the
four per-beam lists are appended only after the loop completes. -/
def parse_velocity_chunk (chunk : List Nat) (s : Store) : Store × Option PyErr :=
  let N := (chunk.length - 2) / 2 / 4
  match unpackH chunk 0 with
  | none => (s, some PyErr.structError)
  | some velocity_data_id =>
    if velocity_data_id = 256 then
      let s := appendV s Names.VELOCITY_DATA_ID (Val.int velocity_data_id)
      match vel_rows chunk 0 (N - 1) with
      | none => (s, some PyErr.structError)
      | some rows =>
        let s := appendV s Names.WATER_VELOCITY_EAST (Val.list (rows.map fun r => r.1))
        let s := appendV s Names.WATER_VELOCITY_NORTH (Val.list (rows.map fun r => r.2.1))
        let s := appendV s Names.WATER_VELOCITY_UP (Val.list (rows.map fun r => r.2.2.1))
        let s := appendV s Names.ERROR_VELOCITY (Val.list (rows.map fun r => r.2.2.2))
        (s, none)
    else (s, some (PyErr.sampleException msg_vel_id))

/-- `parse_corelation_magnitude_chunk` (source spelling). `N = (len - 2) / 4`;
the loop `range(1, N)` performs `N - 1` iterations. -/
def parse_corelation_magnitude_chunk (chunk : List Nat) (s : Store) : Store × Option PyErr :=
  let N := (chunk.length - 2) / 4
  match unpackH chunk 0 with
  | none => (s, some PyErr.structError)
  | some correlation_magnitude_id =>
    if correlation_magnitude_id = 512 then
      let s := appendV s Names.CORRELATION_MAGNITUDE_ID (Val.int correlation_magnitude_id)
      match byte_rows chunk 0 (N - 1) with
      | none => (s, some PyErr.structError)
      | some rows =>
        let s := appendV s Names.CORRELATION_MAGNITUDE_BEAM1 (Val.list (rows.map fun r => (r.1 : Int)))
        let s := appendV s Names.CORRELATION_MAGNITUDE_BEAM2 (Val.list (rows.map fun r => (r.2.1 : Int)))
        let s := appendV s Names.CORRELATION_MAGNITUDE_BEAM3 (Val.list (rows.map fun r => (r.2.2.1 : Int)))
        let s := appendV s Names.CORRELATION_MAGNITUDE_BEAM4 (Val.list (rows.map fun r => (r.2.2.2 : Int)))
        (s, none)
    else (s, some (PyErr.sampleException msg_corr_id))

/-- `parse_echo_intensity_chunk`. Same shape as the correlation decoder. -/
def parse_echo_intensity_chunk (chunk : List Nat) (s : Store) : Store × Option PyErr :=
  let N := (chunk.length - 2) / 4
  match unpackH chunk 0 with
  | none => (s, some PyErr.structError)
  | some echo_intensity_id =>
    if echo_intensity_id = 768 then
      let s := appendV s Names.ECHO_INTENSITY_ID (Val.int echo_intensity_id)
      match byte_rows chunk 0 (N - 1) with
      | none => (s, some PyErr.structError)
      | some rows =>
        let s := appendV s Names.ECHO_INTENSITY_BEAM1 (Val.list (rows.map fun r => (r.1 : Int)))
        let s := appendV s Names.ECHO_INTENSITY_BEAM2 (Val.list (rows.map fun r => (r.2.1 : Int)))
        let s := appendV s Names.ECHO_INTENSITY_BEAM3 (Val.list (rows.map fun r => (r.2.2.1 : Int)))
        let s := appendV s Names.ECHO_INTENSITY_BEAM4 (Val.list (rows.map fun r => (r.2.2.2 : Int)))
        (s, none)
    else (s, some (PyErr.sampleException msg_echo_id))

/-- `parse_percent_good_chunk`. Same shape as the correlation decoder. -/
def parse_percent_good_chunk (chunk : List Nat) (s : Store) : Store × Option PyErr :=
  let N := (chunk.length - 2) / 4
  match unpackH chunk 0 with
  | none => (s, some PyErr.structError)
  | some percent_good_id =>
    if percent_good_id = 1024 then
      let s := appendV s Names.PERCENT_GOOD_ID (Val.int percent_good_id)
      match byte_rows chunk 0 (N - 1) with
      | none => (s, some PyErr.structError)
      | some rows =>
        let s := appendV s Names.PERCENT_GOOD_3BEAM (Val.list (rows.map fun r => (r.1 : Int)))
        let s := appendV s Names.PERCENT_TRANSFORMS_REJECT (Val.list (rows.map fun r => (r.2.1 : Int)))
        let s := appendV s Names.PERCENT_BAD_BEAMS (Val.list (rows.map fun r => (r.2.2.1 : Int)))
        let s := appendV s Names.PERCENT_GOOD_4BEAM (Val.list (rows.map fun r => (r.2.2.2 : Int)))
        (s, none)
    else (s, some (PyErr.sampleException msg_pg_id))

/-- `parse_bottom_track_chunk` (format
`<HHHBBBBHLHHHHhhhhBBBBBBBBBBBBHHHhhhhBBBBBBBBBBBBHBBBBBBBBB`, 81 bytes).
The 4-byte `RESERVED` field at offset 12 is unpacked but never appended. -/
def parse_bottom_track_chunk (chunk : List Nat) (s : Store) : Store × Option PyErr :=
  if chunk.length = 81 then
    let bottom_track_id := u16F chunk 0
    if bottom_track_id = 1536 then
      let s := appendAll s
        [(Names.BOTTOM_TRACK_ID, Val.int bottom_track_id),
         (Names.BT_PINGS_PER_ENSEMBLE, Val.int (u16F chunk 2)),
         (Names.BT_DELAY_BEFORE_REACQUIRE, Val.int (u16F chunk 4)),
         (Names.BT_CORR_MAGNITUDE_MIN, Val.int (bF chunk 6)),
         (Names.BT_EVAL_MAGNITUDE_MIN, Val.int (bF chunk 7)),
         (Names.BT_PERCENT_GOOD_MIN, Val.int (bF chunk 8)),
         (Names.BT_MODE, Val.int (bF chunk 9)),
         (Names.BT_ERROR_VELOCITY_MAX, Val.int (u16F chunk 10)),
         (Names.BEAM1_BT_RANGE_LSB, Val.int (u16F chunk 16)),
         (Names.BEAM2_BT_RANGE_LSB, Val.int (u16F chunk 18)),
         (Names.BEAM3_BT_RANGE_LSB, Val.int (u16F chunk 20)),
         (Names.BEAM4_BT_RANGE_LSB, Val.int (u16F chunk 22)),
         (Names.EASTWARD_BT_VELOCITY, Val.int (i16F chunk 24)),
         (Names.NORTHWARD_BT_VELOCITY, Val.int (i16F chunk 26)),
         (Names.UPWARD_BT_VELOCITY, Val.int (i16F chunk 28)),
         (Names.ERROR_BT_VELOCITY, Val.int (i16F chunk 30)),
         (Names.BEAM1_BT_CORRELATION, Val.int (bF chunk 32)),
         (Names.BEAM2_BT_CORRELATION, Val.int (bF chunk 33)),
         (Names.BEAM3_BT_CORRELATION, Val.int (bF chunk 34)),
         (Names.BEAM4_BT_CORRELATION, Val.int (bF chunk 35)),
         (Names.BEAM1_EVAL_AMP, Val.int (bF chunk 36)),
         (Names.BEAM2_EVAL_AMP, Val.int (bF chunk 37)),
         (Names.BEAM3_EVAL_AMP, Val.int (bF chunk 38)),
         (Names.BEAM4_EVAL_AMP, Val.int (bF chunk 39)),
         (Names.BEAM1_BT_PERCENT_GOOD, Val.int (bF chunk 40)),
         (Names.BEAM2_BT_PERCENT_GOOD, Val.int (bF chunk 41)),
         (Names.BEAM3_BT_PERCENT_GOOD, Val.int (bF chunk 42)),
         (Names.BEAM4_BT_PERCENT_GOOD, Val.int (bF chunk 43)),
         (Names.REF_LAYER_MIN, Val.int (u16F chunk 44)),
         (Names.REF_LAYER_NEAR, Val.int (u16F chunk 46)),
         (Names.REF_LAYER_FAR, Val.int (u16F chunk 48)),
         (Names.BEAM1_REF_LAYER_VELOCITY, Val.int (i16F chunk 50)),
         (Names.BEAM2_REF_LAYER_VELOCITY, Val.int (i16F chunk 52)),
         (Names.BEAM3_REF_LAYER_VELOCITY, Val.int (i16F chunk 54)),
         (Names.BEAM4_REF_LAYER_VELOCITY, Val.int (i16F chunk 56)),
         (Names.BEAM1_REF_CORRELATION, Val.int (bF chunk 58)),
         (Names.BEAM2_REF_CORRELATION, Val.int (bF chunk 59)),
         (Names.BEAM3_REF_CORRELATION, Val.int (bF chunk 60)),
         (Names.BEAM4_REF_CORRELATION, Val.int (bF chunk 61)),
         (Names.BEAM1_REF_INTENSITY, Val.int (bF chunk 62)),
         (Names.BEAM2_REF_INTENSITY, Val.int (bF chunk 63)),
         (Names.BEAM3_REF_INTENSITY, Val.int (bF chunk 64)),
         (Names.BEAM4_REF_INTENSITY, Val.int (bF chunk 65)),
         (Names.BEAM1_REF_PERCENT_GOOD, Val.int (bF chunk 66)),
         (Names.BEAM2_REF_PERCENT_GOOD, Val.int (bF chunk 67)),
         (Names.BEAM3_REF_PERCENT_GOOD, Val.int (bF chunk 68)),
         (Names.BEAM4_REF_PERCENT_GOOD, Val.int (bF chunk 69)),
         (Names.BT_MAX_DEPTH, Val.int (u16F chunk 70)),
         (Names.BEAM1_RSSI_AMPLITUDE, Val.int (bF chunk 72)),
         (Names.BEAM2_RSSI_AMPLITUDE, Val.int (bF chunk 73)),
         (Names.BEAM3_RSSI_AMPLITUDE, Val.int (bF chunk 74)),
         (Names.BEAM4_RSSI_AMPLITUDE, Val.int (bF chunk 75)),
         (Names.BT_GAIN, Val.int (bF chunk 76)),
         (Names.BEAM1_BT_RANGE_MSB, Val.int (bF chunk 77)),
         (Names.BEAM2_BT_RANGE_MSB, Val.int (bF chunk 78)),
         (Names.BEAM3_BT_RANGE_MSB, Val.int (bF chunk 79)),
         (Names.BEAM4_BT_RANGE_MSB, Val.int (bF chunk 80))]
      (s, none)
    else (s, some (PyErr.sampleException msg_bt_id))
  else (s, some PyErr.structError)

/-- `fill_bt_nans`. Its first statement evaluates `np.nan`, but `numpy` is
never imported in the module, so the very first append raises
`NameError: name 'np' is not defined` and no column is touched. -/
def fill_bt_nans (s : Store) : Store × Option PyErr :=
  (s, some (PyErr.nameError name_np))

/-- `buf[a:b]`: Python slicing, which clamps out-of-range bounds. -/
def sliceL (buf : List Nat) (a b : Nat) : List Nat := (buf.drop a).take (b - a)

/-- The checksum stage of `_build_parsed_values`:
`length = unpack("<H", ensemble[2:4])`; `total = sum(ord(data[i]) for i in
range(0, length))` (raises `IndexError` when `length > len(ensemble)`);
`checksum = total & 65535`; compare against
`unpack("<H", ensemble[length : length+2])`.
On mismatch the source first evaluates `log.debug(...)`, and `log` is
undefined in the module, so the branch raises `NameError: log` (the
`raise SampleException` after it is unreachable). -/
def checksumStage (ensemble : List Nat) : Except PyErr Nat :=
  match unpackH ensemble 2 with
  | none => Except.error PyErr.structError
  | some length =>
    if length ≤ ensemble.length then
      let checksum := (ensemble.take length).sum &&& 65535
      match unpackH ensemble length with
      | none => Except.error PyErr.structError
      | some stored =>
        if checksum = stored then Except.ok checksum
        else Except.error (PyErr.nameError name_log)
    else Except.error PyErr.indexError

/-- The offset-table loop: one `unpack("<H", ensemble[strt:strt+2])` per
declared data type, starting at byte 6. `none` is `struct.error`. -/
def readOffsets (ensemble : List Nat) : Nat → Nat → Option (List Nat)
  | _, 0 => some []
  | strt, n + 1 =>
    match unpackH ensemble strt with
    | none => none
    | some v =>
      match readOffsets ensemble (strt + 2) n with
      | none => none
      | some t => some (v :: t)

/-- The section-dispatch loop of `_build_parsed_values`: for each offset,
read the section type id and run the matching decoder. `iCells` is the
method-local variable assigned only in the Fixed Leader branch; the four
cell-indexed branches evaluate `2 + k * iCells` before slicing, raising
`UnboundLocalError` when no Fixed Leader has been dispatched yet in this
ensemble. Returns the store, the `bt_not_included` flag, and the error if
one was raised. -/
def dispatch_list (ensemble : List Nat) :
    List Nat → Option Nat → Bool → Store → (Store × Bool) × Option PyErr
  | [], _, bt_not_included, s => ((s, bt_not_included), none)
  | offset :: rest, iCells, bt_not_included, s =>
    match unpackH ensemble offset with
    | none => ((s, bt_not_included), some PyErr.structError)
    | some data_type =>
      if data_type = 0 then
        match parse_fixed_chunk (sliceL ensemble offset (offset + 58)) s with
        | ((s2, none), nc) => dispatch_list ensemble rest nc bt_not_included s2
        | ((s2, some e), _) => ((s2, bt_not_included), some e)
      else if data_type = 128 then
        match parse_variable_chunk (sliceL ensemble offset (offset + 60)) s with
        | (s2, none) => dispatch_list ensemble rest iCells bt_not_included s2
        | (s2, some e) => ((s2, bt_not_included), some e)
      else if data_type = 256 then
        match iCells with
        | none => ((s, bt_not_included), some (PyErr.unboundLocal name_iCells))
        | some n =>
          match parse_velocity_chunk (sliceL ensemble offset (offset + (2 + 8 * n))) s with
          | (s2, none) => dispatch_list ensemble rest iCells bt_not_included s2
          | (s2, some e) => ((s2, bt_not_included), some e)
      else if data_type = 512 then
        match iCells with
        | none => ((s, bt_not_included), some (PyErr.unboundLocal name_iCells))
        | some n =>
          match parse_corelation_magnitude_chunk (sliceL ensemble offset (offset + (2 + 4 * n))) s with
          | (s2, none) => dispatch_list ensemble rest iCells bt_not_included s2
          | (s2, some e) => ((s2, bt_not_included), some e)
      else if data_type = 768 then
        match iCells with
        | none => ((s, bt_not_included), some (PyErr.unboundLocal name_iCells))
        | some n =>
          match parse_echo_intensity_chunk (sliceL ensemble offset (offset + (2 + 4 * n))) s with
          | (s2, none) => dispatch_list ensemble rest iCells bt_not_included s2
          | (s2, some e) => ((s2, bt_not_included), some e)
      else if data_type = 1024 then
        match iCells with
        | none => ((s, bt_not_included), some (PyErr.unboundLocal name_iCells))
        | some n =>
          match parse_percent_good_chunk (sliceL ensemble offset (offset + (2 + 4 * n))) s with
          | (s2, none) => dispatch_list ensemble rest iCells bt_not_included s2
          | (s2, some e) => ((s2, bt_not_included), some e)
      else if data_type = 1536 then
        match parse_bottom_track_chunk (sliceL ensemble offset (offset + 81)) s with
        | (s2, none) => dispatch_list ensemble rest iCells false s2
        | (s2, some e) => ((s2, bt_not_included), some e)
      else dispatch_list ensemble rest iCells bt_not_included s

/-- `_build_parsed_values`: checksum stage, then append checksum, parse and
append the fixed 6-byte header (`<BBHBB`), read the offset table, dispatch
every section, and fall back to `fill_bt_nans` when no Bottom Track section
was encountered. Appends performed before a raise persist. -/
def build_parsed_values (ensemble : List Nat) (s : Store) : Store × Option PyErr :=
  match checksumStage ensemble with
  | Except.error e => (s, some e)
  | Except.ok checksum =>
    let s := appendV s Names.CHECKSUM (Val.int checksum)
    if 6 ≤ ensemble.length then
      let header_id := bF ensemble 0
      let data_source_id := bF ensemble 1
      let num_bytes := u16F ensemble 2
      let num_data_types := bF ensemble 5
      let s := appendAll s
        [(Names.HEADER_ID, Val.int header_id),
         (Names.DATA_SOURCE_ID, Val.int data_source_id),
         (Names.NUM_BYTES, Val.int num_bytes),
         (Names.NUM_DATA_TYPES, Val.int num_data_types)]
      match readOffsets ensemble 6 num_data_types with
      | none => (s, some PyErr.structError)
      | some offsets =>
        let s := appendV s Names.OFFSET_DATA_TYPES (Val.list (offsets.map Int.ofNat))
        match dispatch_list ensemble offsets none true s with
        | ((s2, _), some e) => (s2, some e)
        | ((s2, bt_not_included), none) =>
          if bt_not_included then fill_bt_nans s2 else (s2, none)
    else (s, some PyErr.structError)

/-- One position of the record-marker regex
`(\x7f\x7f)([\x00-\xFF]{2})(\x00)(\x06|\x07)`: a six-byte window starting
with the two marker bytes, a null spare byte at offset 4, and a data-type
count of 6 or 7 at offset 5. -/
def isMatchAt (data : List Nat) (p : Nat) : Bool :=
  decide (p + 6 ≤ data.length) && data.getD p 0 = 127 && data.getD (p + 1) 0 = 127 &&
    data.getD (p + 4) 0 = 0 &&
    (data.getD (p + 5) 0 = 6 || data.getD (p + 5) 0 = 7)

/-- `re.finditer` over the buffer: scan left to right, and continue after
the end of each (six-byte) match, so matches never overlap. Fuel-based
recursion; `find_markers` supplies enough fuel to scan the whole buffer. -/
def find_markers_from (data : List Nat) : Nat → Nat → List Nat
  | _, 0 => []
  | p, fuel + 1 =>
    if p + 6 ≤ data.length then
      if isMatchAt data p then p :: find_markers_from data (p + 6) fuel
      else find_markers_from data (p + 1) fuel
    else []

/-- All marker positions found by `DVL_PD0_REGEX.finditer(data)`. -/
def find_markers (data : List Nat) : List Nat :=
  find_markers_from data 0 (data.length + 1)

/-- The per-marker loop of `DVLparser.__init__`: read the declared length
`numBytes` at `startpt + 2`, slice `data[startpt : startpt + numBytes + 2]`,
and feed it to `_build_parsed_values`. The loop has no exception handler,
so the first raised error aborts the whole run. -/
def run_ensembles (data : List Nat) : List Nat → Store → Store × Option PyErr
  | [], s => (s, none)
  | startpt :: rest, s =>
    match unpackH data (startpt + 2) with
    | none => (s, some PyErr.structError)
    | some numBytes =>
      let ensemble := sliceL data startpt (startpt + numBytes + 2)
      match build_parsed_values ensemble s with
      | (s2, none) => run_ensembles data rest s2
      | (s2, some e) => (s2, some e)

/-- A whole decode run of `DVLparser.__init__` over an in-memory buffer:
scan for markers, then decode ensemble by ensemble starting from an empty
aggregate store. The second component is the uncaught exception that
terminated the run, if any. -/
def run_dvl (data : List Nat) : Store × Option PyErr :=
  run_ensembles data (find_markers data) emptyStore

/-!
## Concrete test inputs

Byte buffers used to settle the claims on explicit inputs. Chunk bodies are
mostly zero; only the bytes a decoder checks against a constant (type ids,
`signal_processing_mode`) and the fields a claim inspects are nonzero. The
trailing two bytes of each ensemble hold the little-endian byte-sum checksum
of the bytes before them.
-/

/-- A well-formed 58-byte Fixed Leader chunk: id 0, `data_flag` 0,
`signal_processing_mode` 1 (byte 16), `num_cells` 0. -/
def fixed58 : List Nat := List.replicate 16 0 ++ [1] ++ List.replicate 41 0

/-- A well-formed Fixed Leader chunk with `num_cells = 2` (byte 9). -/
def fixed58nc2 : List Nat :=
  List.replicate 9 0 ++ [2] ++ List.replicate 6 0 ++ [1] ++ List.replicate 41 0

/-- A Fixed Leader chunk violating the `signal_processing_mode == 1`
invariant (all bytes zero). -/
def fixed58bad : List Nat := List.replicate 58 0

/-- A Bottom Track chunk: id 1536, all data fields zero. -/
def bt81 : List Nat := [0, 6] ++ List.replicate 79 0

/-- A Velocity chunk sized for two depth cells (id 256, 16 payload bytes). -/
def vel18 : List Nat := [0, 1] ++ List.replicate 16 0

/-- A Correlation Magnitude chunk sized for two depth cells (id 512). -/
def corr10 : List Nat := [0, 2] ++ List.replicate 8 0

/-- C1 input: one checksum-valid ensemble declaring 7 data types: a Fixed
Leader with `num_cells = 2`, a Velocity section, a Correlation Magnitude
section, a Bottom Track section, and three offsets pointing at an unknown
type id (999), which the dispatch loop ignores. -/
def bufC1 : List Nat :=
  [127, 127, 189, 0, 0, 7] ++ [22, 0, 80, 0, 98, 0, 108, 0, 20, 0, 20, 0, 20, 0] ++
  [231, 3] ++ fixed58nc2 ++ vel18 ++ corr10 ++ bt81 ++ [40, 4]

/-- C2 input, first ensemble: a marker whose stored checksum (0) differs
from the byte sum (266). -/
def ensC2A : List Nat := [127, 127, 6, 0, 0, 6, 0, 0]

/-- C2 input, second ensemble: fully valid (Fixed Leader + Bottom Track),
decodable on its own. -/
def ensC2B : List Nat :=
  [127, 127, 159, 0, 0, 6] ++ [20, 0, 18, 0, 18, 0, 18, 0, 18, 0, 78, 0] ++
  [231, 3] ++ fixed58 ++ bt81 ++ [62, 3]

/-- C2 input: the corrupt ensemble followed by the valid one. -/
def bufC2 : List Nat := ensC2A ++ ensC2B

/-- C4 input: one checksum-valid ensemble whose offset table has no
section of type 1536 (Fixed Leader only, plus ignored dummy offsets). -/
def bufC4 : List Nat :=
  [127, 127, 78, 0, 0, 6] ++ [20, 0, 18, 0, 18, 0, 18, 0, 18, 0, 18, 0] ++
  [231, 3] ++ fixed58 ++ [171, 2]

/-- C5 input: one checksum-valid ensemble whose Fixed Leader violates the
`signal_processing_mode == 1` structural invariant. -/
def bufC5 : List Nat :=
  [127, 127, 78, 0, 0, 6] ++ [20, 0, 18, 0, 18, 0, 18, 0, 18, 0, 18, 0] ++
  [231, 3] ++ fixed58bad ++ [170, 2]

/-- C6 input: a valid marker whose declared length (100) extends far past
the end of the six-byte buffer. -/
def bufC6 : List Nat := [127, 127, 100, 0, 0, 6]

/-- C7 input: a checksum-valid ensemble whose header id byte is 0, not
0x7F (one declared data type, a Bottom Track section). -/
def ensC7 : List Nat := [0, 0, 89, 0, 0, 1] ++ [8, 0] ++ bt81 ++ [104, 0]

/-- C8 input: a checksum-valid ensemble whose offset table lists the
Velocity section (offset 20) before the Fixed Leader (offset 22). -/
def bufC8 : List Nat :=
  [127, 127, 80, 0, 0, 6] ++ [20, 0, 22, 0, 18, 0, 18, 0, 18, 0, 18, 0] ++
  [231, 3] ++ [0, 1] ++ fixed58 ++ [178, 2]

/-- C6 witness input: a four-byte buffer whose declared length field (9)
exceeds the buffer length. -/
def truncC6 : List Nat := [0, 0, 9, 0]

/-- C3 witness input: declared length 4, byte sum 6, stored checksum 6. -/
def chkC3 : List Nat := [1, 1, 4, 0, 6, 0]

/-- C7 witness input: a minimal buffer matched by the marker regex. -/
def markC7 : List Nat := [127, 127, 0, 0, 0, 7]

/-- C8 witness input: two bytes encoding section type id 256 (Velocity). -/
def velhdrC8 : List Nat := [0, 1]

/-- C9 witness input: a 58-byte Fixed Leader chunk with id 0 and
sysconfig field 0b00000011. -/
def chunkC9 : List Nat := [0, 0, 0, 0, 3, 0] ++ List.replicate 52 0

/-!
## Theorems
-/

set_option maxRecDepth 100000

set_option maxHeartbeats 1000000

/-- The source masks the checksum with `& 65535`, which agrees with
reduction modulo 65536. -/
theorem and_65535_eq_mod (n : ℕ) : n &&& 65535 = n % 65536 := by
  have h := Nat.and_pow_two_sub_one_eq_mod n 16
  norm_num at h
  exact h

/-- Every position returned by the marker scan satisfies the regex
predicate `isMatchAt`. -/
theorem isMatch_of_mem_find_markers_from (data : List ℕ) :
    ∀ fuel p q, q ∈ find_markers_from data p fuel → isMatchAt data q = true := by
  intro fuel
  induction fuel with
  | zero => intro p q hq; simp [find_markers_from] at hq
  | succ n ih =>
    intro p q hq
    simp only [find_markers_from] at hq
    by_cases h6 : p + 6 ≤ data.length
    · rw [if_pos h6] at hq
      by_cases hm : isMatchAt data p = true
      · rw [if_pos hm] at hq
        rcases List.mem_cons.mp hq with rfl | hq2
        · exact hm
        · exact ih _ _ hq2
      · rw [if_neg hm] at hq
        exact ih _ _ hq
    · rw [if_neg h6] at hq
      simp at hq

/-- Claim C3 (confirmed). For every candidate ensemble whose declared
length field decodes to `L` and which holds at least `L + 2` bytes, the
checksum computed by the validator is the sum of the bytes at offsets
`0 .. L-1` reduced modulo 65536, and the stage succeeds (returning exactly
that value) precisely when it equals the little-endian 16-bit integer
stored at offsets `L` and `L + 1`; otherwise the stage fails. -/
theorem c3_checksum (e : List ℕ) (L : ℕ) (h2 : unpackH e 2 = some L)
    (hl : L + 2 ≤ e.length) :
    checksumStage e =
      (if (e.take L).sum % 65536 = leU16 (e.getD L 0) (e.getD (L + 1) 0)
       then Except.ok ((e.take L).sum % 65536)
       else Except.error (PyErr.nameError name_log)) := by
  have hLe : L ≤ e.length := by omega
  have hst : unpackH e L = some (leU16 (e.getD L 0) (e.getD (L + 1) 0)) := by
    simp [unpackH, hl]
  simp [checksumStage, h2, hLe, hst, and_65535_eq_mod]

/-- Witness for C3: `chkC3` declares length 4 and stores checksum 6,
matching the byte sum `1 + 1 + 4 + 0 = 6`. -/
theorem c3_checksum_witness :
    unpackH chkC3 2 = some 4 ∧ 4 + 2 ≤ chkC3.length ∧
    checksumStage chkC3 =
      (if (chkC3.take 4).sum % 65536 = leU16 (chkC3.getD 4 0) (chkC3.getD 5 0)
       then Except.ok ((chkC3.take 4).sum % 65536)
       else Except.error (PyErr.nameError name_log)) :=
  ⟨rfl, by decide, c3_checksum chkC3 4 rfl (by decide)⟩

/-- Claim C2 (corrected, amended part). A checksum-mismatched ensemble
contributes nothing to the aggregate store, but the mismatch branch
evaluates the undefined global `log`, so `_build_parsed_values` raises
`NameError: log` (the `raise SampleException` after it is unreachable);
the per-ensemble loop in `__init__` has no handler, so this exception
terminates the whole decode run instead of letting scanning continue. -/
theorem c2_amended (e : List ℕ) (s : Store) (L stored : ℕ)
    (h2 : unpackH e 2 = some L) (hL : L ≤ e.length)
    (hst : unpackH e L = some stored)
    (hne : (e.take L).sum % 65536 ≠ stored) :
    build_parsed_values e s = (s, some (PyErr.nameError name_log)) := by
  have hcs : checksumStage e = Except.error (PyErr.nameError name_log) := by
    simp only [checksumStage, h2, hst, if_pos hL]
    rw [and_65535_eq_mod, if_neg hne]
  simp [build_parsed_values, hcs]

/-- Witness for C2's amended theorem: `ensC2A` declares length 6, its byte
sum is 266 and its stored checksum is 0. -/
theorem c2_amended_witness :
    unpackH ensC2A 2 = some 6 ∧ 6 ≤ ensC2A.length ∧ unpackH ensC2A 6 = some 0 ∧
    (ensC2A.take 6).sum % 65536 ≠ 0 ∧
    build_parsed_values ensC2A emptyStore = (emptyStore, some (PyErr.nameError name_log)) :=
  ⟨rfl, by decide, rfl, by decide, c2_amended ensC2A emptyStore 6 0 rfl (by decide) rfl (by decide)⟩

/-- Counterexample for C2 as stated: `bufC2` is a checksum-corrupt ensemble
followed by a fully valid one. The run terminates with the uncaught
`NameError: log` and an empty store, so decoding does not continue with the
next marker, even though the second ensemble decodes successfully on its
own. -/
theorem c2_counterexample :
    run_dvl bufC2 = (emptyStore, some (PyErr.nameError name_log)) ∧
    (run_dvl ensC2B).2 = none ∧
    (run_dvl ensC2B).1 Names.CHECKSUM = [Val.int 830] ∧
    (run_dvl ensC2B).1 Names.FIXED_LEADER_ID = [Val.int 0] :=
  ⟨rfl, rfl, rfl, rfl⟩

/-- Claim C6 (corrected, amended part). For every ensemble slice whose
declared length exceeds the slice length — the truncated-ensemble case,
since Python slicing clamps `data[startpt : startpt+numBytes+2]` at the
buffer end — the checksum loop indexes past the end of the slice and
raises an uncaught `IndexError`: no warning is reported and the run
crashes, with the store exactly as it was. -/
theorem c6_amended (e : List ℕ) (s : Store) (L : ℕ)
    (h2 : unpackH e 2 = some L) (hl : e.length < L) :
    build_parsed_values e s = (s, some PyErr.indexError) := by
  have hcs : checksumStage e = Except.error PyErr.indexError := by
    simp only [checksumStage, h2]
    rw [if_neg (by omega)]
  simp [build_parsed_values, hcs]

/-- Witness for C6's amended theorem: `truncC6` declares length 9 from a
four-byte buffer. -/
theorem c6_amended_witness :
    unpackH truncC6 2 = some 9 ∧ truncC6.length < 9 ∧
    build_parsed_values truncC6 emptyStore = (emptyStore, some PyErr.indexError) :=
  ⟨rfl, by decide, c6_amended truncC6 emptyStore 9 rfl (by decide)⟩

/-- Counterexample for C6 as stated: `bufC6` contains a valid marker whose
declared length (100) extends past the buffer end; the run does not report
a truncation warning and stop cleanly — it terminates with an uncaught
`IndexError`. -/
theorem c6_counterexample :
    run_dvl bufC6 = (emptyStore, some PyErr.indexError) := rfl

/-- Claim C8 (corrected, amended part). Sections are dispatched strictly in
offset-table order and the depth-cell count is available only after the
Fixed Leader branch has run: when the first offset dispatches to a
cell-indexed section (type 256) with no Fixed Leader seen yet in this
ensemble, the local `iCells` is unbound, and evaluating `2 + 8 * iCells`
raises `UnboundLocalError`, aborting the ensemble with nothing dispatched. -/
theorem c8_amended (e : List ℕ) (off : ℕ) (rest : List ℕ) (bt : Bool) (s : Store)
    (h : unpackH e off = some 256) :
    dispatch_list e (off :: rest) none bt s
      = ((s, bt), some (PyErr.unboundLocal name_iCells)) := by
  simp +decide [dispatch_list, h]

/-- Witness for C8's amended theorem: dispatching offset 0 of a buffer
whose leading type id is 256, with no Fixed Leader decoded yet. -/
theorem c8_amended_witness :
    unpackH velhdrC8 0 = some 256 ∧
    dispatch_list velhdrC8 [0] none true emptyStore
      = ((emptyStore, true), some (PyErr.unboundLocal name_iCells)) :=
  ⟨rfl, c8_amended velhdrC8 0 [] true emptyStore rfl⟩

/-- Counterexample for C8 as stated: `bufC8` is a checksum-valid ensemble
whose offset table lists the Velocity section before the Fixed Leader. It
is not decoded correctly: the run aborts with `UnboundLocalError` on
`iCells`, the Fixed Leader is never dispatched, and no velocity data is
stored (only the checksum, header and offset columns were appended). -/
theorem c8_counterexample :
    (run_dvl bufC8).2 = some (PyErr.unboundLocal name_iCells) ∧
    (run_dvl bufC8).1 Names.CHECKSUM = [Val.int 690] ∧
    (run_dvl bufC8).1 Names.FIXED_LEADER_ID = [] ∧
    (run_dvl bufC8).1 Names.VELOCITY_DATA_ID = [] ∧
    (run_dvl bufC8).1 Names.WATER_VELOCITY_EAST = [] :=
  ⟨rfl, rfl, rfl, rfl, rfl⟩

/-- Claim C7 (corrected, amended part). The decoder never verifies the
header id after the checksum stage; the invariant `header id == 0x7F`
holds for ensembles produced by the frame scanner only because the marker
regex requires the two 0x7F bytes: every marker position accepted by the
scan yields an ensemble slice whose first two bytes are 0x7F, for any
declared length `n`. -/
theorem c7_amended (data : List ℕ) (p : ℕ) (h : p ∈ find_markers data) (n : ℕ) :
    (sliceL data p (p + n + 2)).getD 0 0 = 127 ∧
    (sliceL data p (p + n + 2)).getD 1 0 = 127 := by
  have hm := isMatch_of_mem_find_markers_from data (data.length + 1) 0 p h
  simp only [isMatchAt, Bool.and_eq_true, decide_eq_true_eq, Bool.or_eq_true] at hm
  obtain ⟨⟨⟨⟨h6, hp0⟩, hp1⟩, _⟩, _⟩ := hm
  have hb : p + n + 2 - p = n + 2 := by omega
  have hget : ∀ i, i < n + 2 → p + i < data.length →
      (sliceL data p (p + n + 2)).getD i 0 = data.getD (p + i) 0 := by
    intro i hi hpi
    simp [sliceL, hb, List.getD_eq_getElem?_getD, List.getElem?_take, hi, List.getElem?_drop]
  constructor
  · rw [hget 0 (by omega) (by omega)]
    simpa using hp0
  · rw [hget 1 (by omega) (by omega)]
    simpa using hp1

/-- Witness for C7's amended theorem at the marker buffer `markC7`. -/
theorem c7_amended_witness :
    0 ∈ find_markers markC7 ∧
    (sliceL markC7 0 (0 + 0 + 2)).getD 0 0 = 127 ∧
    (sliceL markC7 0 (0 + 0 + 2)).getD 1 0 = 127 :=
  ⟨by decide, (c7_amended markC7 0 (by decide) 0).1, (c7_amended markC7 0 (by decide) 0).2⟩

/-- Counterexample for C7 as stated: `ensC7` is a checksum-valid ensemble
whose header id byte is 0, not 0x7F. No verification fires: the ensemble
is decoded to completion without error and fully merged (its header id 0
and Bottom Track fields land in the store), instead of being treated as a
fatal decode error and skipped. -/
theorem c7_counterexample :
    (build_parsed_values ensC7 emptyStore).2 = none ∧
    (build_parsed_values ensC7 emptyStore).1 Names.HEADER_ID = [Val.int 0] ∧
    (build_parsed_values ensC7 emptyStore).1 Names.CHECKSUM = [Val.int 104] ∧
    (build_parsed_values ensC7 emptyStore).1 Names.BOTTOM_TRACK_ID = [Val.int 1536] :=
  ⟨rfl, rfl, rfl, rfl⟩

/-- Counterexample for C5 as stated: `bufC5` is a checksum-valid ensemble
whose Fixed Leader violates the `signal_processing_mode == 1` invariant.
The ensemble is rejected (the run ends with the `SampleException`), yet the
store is not left as it was: the checksum, header and early Fixed Leader
columns were already appended before the violation was detected. -/
theorem c5_counterexample :
    (run_dvl bufC5).2 = some (PyErr.sampleException msg_spm) ∧
    (run_dvl bufC5).1 Names.CHECKSUM = [Val.int 682] ∧
    (run_dvl bufC5).1 Names.HEADER_ID = [Val.int 127] ∧
    (run_dvl bufC5).1 Names.FIXED_LEADER_ID = [Val.int 0] ∧
    (run_dvl bufC5).1 Names.DATA_FLAG = [Val.int 0] ∧
    (run_dvl bufC5).1 Names.SIGNAL_PROCESSING_MODE = [] :=
  ⟨rfl, rfl, rfl, rfl, rfl, rfl⟩

/-- Claim C5 (corrected, amended part). The per-ensemble merge is not
atomic for structural violations detected during section decoding:
whatever the prior store contents, processing `bufC5` rejects the ensemble
with the `signal_processing_mode` violation while the checksum,
fixed-leader-id and data-flag columns have each *grown by one row*; only
the columns after the violation point (such as `signal_processing_mode`)
are untouched. (A checksum-rejected ensemble, by contrast, appends
nothing — see C2's amended theorem.) -/
theorem c5_amended (pre : Store) :
    (build_parsed_values bufC5 pre).2 = some (PyErr.sampleException msg_spm) ∧
    (build_parsed_values bufC5 pre).1 Names.CHECKSUM = pre Names.CHECKSUM ++ [Val.int 682] ∧
    (build_parsed_values bufC5 pre).1 Names.FIXED_LEADER_ID
      = pre Names.FIXED_LEADER_ID ++ [Val.int 0] ∧
    (build_parsed_values bufC5 pre).1 Names.DATA_FLAG = pre Names.DATA_FLAG ++ [Val.int 0] ∧
    (build_parsed_values bufC5 pre).1 Names.SIGNAL_PROCESSING_MODE
      = pre Names.SIGNAL_PROCESSING_MODE :=
  ⟨rfl, rfl, rfl, rfl, rfl⟩

/-- Claim C1 (code bug). `bufC1` is accepted end to end and its Fixed
Leader declares `num_cells = 2`, but every per-beam sequence appended by
the Velocity and Correlation Magnitude decoders has exactly one entry:
the `for row in range(1, N)` loops decode `N - 1` cells instead of the
`N = num_cells` cells the chunk was sized for. The four sequences do have
equal length, but that length is `num_cells - 1`, not `num_cells`. -/
theorem c1_cell_loop_off_by_one :
    (run_dvl bufC1).2 = none ∧
    (run_dvl bufC1).1 Names.NUM_CELLS = [Val.int 2] ∧
    (run_dvl bufC1).1 Names.WATER_VELOCITY_EAST = [Val.list [0]] ∧
    (run_dvl bufC1).1 Names.WATER_VELOCITY_NORTH = [Val.list [0]] ∧
    (run_dvl bufC1).1 Names.WATER_VELOCITY_UP = [Val.list [0]] ∧
    (run_dvl bufC1).1 Names.ERROR_VELOCITY = [Val.list [0]] ∧
    (run_dvl bufC1).1 Names.CORRELATION_MAGNITUDE_BEAM1 = [Val.list [0]] ∧
    (run_dvl bufC1).1 Names.CORRELATION_MAGNITUDE_BEAM4 = [Val.list [0]] :=
  ⟨rfl, rfl, rfl, rfl, rfl, rfl, rfl, rfl⟩

/-- Claim C4 (code bug). `bufC4` is a single accepted ensemble whose
offset table has no section of type 1536, so `fill_bt_nans` runs — and
immediately raises `NameError: np`, because `numpy` is never imported in
the module. The run aborts, the Bottom Track columns receive no sentinel
row (they stay empty while `checksum` and `num_cells` have one row), and
the equal-column-length invariant fails. -/
theorem c4_fill_bt_nans_crash :
    (run_dvl bufC4).2 = some (PyErr.nameError name_np) ∧
    (run_dvl bufC4).1 Names.BOTTOM_TRACK_ID = [] ∧
    (run_dvl bufC4).1 Names.BEAM1_BT_RANGE_LSB = [] ∧
    (run_dvl bufC4).1 Names.CHECKSUM = [Val.int 683] ∧
    (run_dvl bufC4).1 Names.NUM_CELLS = [Val.int 0] :=
  ⟨rfl, rfl, rfl, rfl, rfl⟩

/-- Claim C9 (confirmed). For every Fixed Leader chunk (58 bytes, id 0)
whose sysconfig field equals 0b00000011, the decoder appends acoustic
frequency 600 (index 3 of the table 75/150/300/600/1200/2400) to the
frequency column, 0 to the beam-pattern column and 0 to the head-attached
column, whatever the remaining bytes. -/
theorem c9_sysconfig (chunk : List ℕ) (s : Store) (h58 : chunk.length = 58)
    (hid : u16F chunk 0 = 0) (hsys : u16F chunk 4 = 3) :
    ((parse_fixed_chunk chunk s).1.1 Names.SYSCONFIG_FREQUENCY
        = s Names.SYSCONFIG_FREQUENCY ++ [Val.int 600]) ∧
    ((parse_fixed_chunk chunk s).1.1 Names.SYSCONFIG_BEAM_PATTERN
        = s Names.SYSCONFIG_BEAM_PATTERN ++ [Val.int 0]) ∧
    ((parse_fixed_chunk chunk s).1.1 Names.SYSCONFIG_HEAD_ATTACHED
        = s Names.SYSCONFIG_HEAD_ATTACHED ++ [Val.int 0]) := by
  simp only [parse_fixed_chunk, h58, hid, hsys]
  have h37 : (3 : ℕ) &&& 7 = 3 := by decide
  simp only [h37, frequencies]
  norm_num
  split_ifs <;> simp +decide [appendAll, appendV, flag01]

/-- Witness for C9 at the concrete chunk `chunkC9`. -/
theorem c9_sysconfig_witness :
    chunkC9.length = 58 ∧ u16F chunkC9 0 = 0 ∧ u16F chunkC9 4 = 3 ∧
    ((parse_fixed_chunk chunkC9 emptyStore).1.1 Names.SYSCONFIG_FREQUENCY
        = emptyStore Names.SYSCONFIG_FREQUENCY ++ [Val.int 600]) ∧
    ((parse_fixed_chunk chunkC9 emptyStore).1.1 Names.SYSCONFIG_BEAM_PATTERN
        = emptyStore Names.SYSCONFIG_BEAM_PATTERN ++ [Val.int 0]) ∧
    ((parse_fixed_chunk chunkC9 emptyStore).1.1 Names.SYSCONFIG_HEAD_ATTACHED
        = emptyStore Names.SYSCONFIG_HEAD_ATTACHED ++ [Val.int 0]) :=
  ⟨by decide, rfl, rfl, (c9_sysconfig chunkC9 emptyStore (by decide) rfl rfl).1,
    (c9_sysconfig chunkC9 emptyStore (by decide) rfl rfl).2.1,
    (c9_sysconfig chunkC9 emptyStore (by decide) rfl rfl).2.2⟩

/-- Claim C10 (confirmed). For every successfully decoded Fixed Leader,
regardless of the coordinate-transform byte, the value appended to the
three-beam-solution column is 0: the source masks the byte with the
literal `0b0000000`, i.e. zero. -/
theorem c10_beams_flag_zero (chunk : List ℕ) (s : Store)
    (h : (parse_fixed_chunk chunk s).1.2 = none) :
    (parse_fixed_chunk chunk s).1.1 Names.COORD_TRANSFORM_BEAMS
      = s Names.COORD_TRANSFORM_BEAMS ++ [Val.int 0] := by
  simp only [parse_fixed_chunk] at h ⊢
  split_ifs at h ⊢
  all_goals
    first
    | exact Option.noConfusion h
    | simp +decide [appendAll, appendV, flag01, Nat.and_zero]

/-- Witness for C10 at the concrete chunk `fixed58`, which decodes
successfully. -/
theorem c10_beams_flag_zero_witness :
    (parse_fixed_chunk fixed58 emptyStore).1.2 = none ∧
    (parse_fixed_chunk fixed58 emptyStore).1.1 Names.COORD_TRANSFORM_BEAMS
      = emptyStore Names.COORD_TRANSFORM_BEAMS ++ [Val.int 0] :=
  ⟨rfl, c10_beams_flag_zero fixed58 emptyStore rfl⟩
